import Mathlib

/-!
# better-duck: verification of the handle-ownership and decoding layer

Shallow embedding of the Rust sources of `better-duck-core` (crates/better-duck-core/src).
Machine integers are modelled as `Int`/`Nat` with explicit wrapping where the Rust code
performs an `as` cast; fallible Rust code returns `Except`-like values; FFI calls into
`libduckdb-sys` (which is outside this crate) are modelled as oracle parameters.
-/

namespace BetterDuck

/-! ## types/numeric.rs : hugeint two-limb codec -/

/-- Rust `as u64` cast of an `i128` value: reduce modulo `2^64`. -/
def wrapU64 (x : Int) : Nat := (x % (2 ^ 64 : Int)).toNat

/-- Rust `as i64` cast of an `i128` value: reduce modulo `2^64` into `[-2^63, 2^63)`. -/
def wrapI64 (x : Int) : Int := (x + 2 ^ 63) % (2 ^ 64 : Int) - 2 ^ 63

/-- The C struct `duckdb_hugeint`: a signed 64-bit `upper` limb and an
unsigned 64-bit `lower` limb. `upper : Int` models Rust `i64`, `lower : Nat`
models Rust `u64`. -/
structure Hugeint where
  upper : Int
  lower : Nat
  deriving Repr, DecidableEq

/-- Source: `const MAX_SUPPORTED_I128: i128 = (i64::MAX as i128 + 1) * (u64::MAX as i128);`
(numeric.rs line 27). -/
def MAX_SUPPORTED_I128 : Int := ((2 ^ 63 - 1) + 1) * (2 ^ 64 - 1)

/-- Source: `fn i128_from_hugeint(hugeint: duckdb_hugeint) -> i128` (numeric.rs lines 93-96):
`let measure = u64::MAX as i128; (hugeint.upper as i128) * measure + (hugeint.lower as i128)`.
Both casts are lossless widenings, and for in-range limbs the result stays inside
the `i128` range, so plain `Int` arithmetic is exact. -/
def i128_from_hugeint (h : Hugeint) : Int :=
  h.upper * (2 ^ 64 - 1) + (h.lower : Int)

/-- Source: `fn hugeint_from_i128(hugeint: i128) -> duckdb_hugeint` (numeric.rs lines 98-116).
`none` models the `panic!("Unsupported! ...")` on the range check.  Rust `/` and `%`
on `i128` truncate toward zero, hence `Int.tdiv`/`Int.tmod`; the two `as` casts in
`duckdb_hugeint { upper: (hugeint / measure) as i64, lower: (hugeint % measure) as u64 }`
are modelled by `wrapI64`/`wrapU64`.  In the negative branch, `u64::MAX - value.lower`
cannot underflow (`value.lower ≤ u64::MAX`), bitwise not on an in-range `i64` is
exactly `-x - 1`, and `wrapping_add` is a wrapped addition. -/
def hugeint_from_i128 (v : Int) : Option Hugeint :=
  if v > MAX_SUPPORTED_I128 ∨ v < -MAX_SUPPORTED_I128 then
    none
  else
    let negative := v < 0
    let a := if negative then -v else v
    let measure : Int := 2 ^ 64 - 1
    let upper0 : Int := wrapI64 (a.tdiv measure)
    let lower0 : Nat := wrapU64 (a.tmod measure)
    if negative then
      let lower1 : Nat := (2 ^ 64 - 1) - lower0
      let upper1 : Int := wrapI64 ((-upper0 - 1) + (if lower1 = 0 then 1 else 0))
      some ⟨upper1, lower1⟩
    else
      some ⟨upper0, lower0⟩

/-! ## error.rs (module declared in lib.rs; variants as used by the sources) -/

/-- The crate error type, as constructed across the sources: `DuckDBFailure`
with an optional message (raw/statement.rs, raw/connection.rs, helpers/duck_result.rs),
`ConversionError` (raw/result.rs, types/*), `InvalidColumnIndex` (raw/result.rs),
and the `From<NulError>` conversion used by `CString::new(..)?` in helpers/path.rs.
The `error.rs` source file itself is not present under src/; the variant names
follow their construction sites and the error taxonomy of spec §7. -/
inductive DuckError where
  | duckDBFailure (msg : Option String)
  | conversionError (msg : String)
  | invalidColumnIndex (idx : Nat)
  | nulError
  deriving Repr, DecidableEq

/-! ## raw/statement.rs : Statement -/

/-- The `Statement` struct (statement.rs lines 17-26): a shared connection
reference, the native prepared-statement pointer (`none` models a null
pointer, `some h` a live handle identified by `h`), the optional stored
result of the last execution, and the parameter-binding index.
The stored result is modelled by `Option Unit` because only its presence
is ever consulted. -/
structure StatementM where
  con : Nat
  stmt : Option Nat
  result : Option Unit
  bindIdx : Nat
  deriving Repr, DecidableEq

/-- Source: `Statement::fetch` (statement.rs lines 182-196).  The native
`duckdb_execute_prepared` call is modelled by the oracle `exec`; the returned
`Bool` records whether that native call was made. Per the source, the method
returns the `AlreadyExecuted` failure when `self.result.is_some()`, and
otherwise executes and returns the new result — it never assigns
`self.result`, so the state is returned unchanged in every path. -/
def Statement.fetch (s : StatementM) (exec : Except DuckError Unit) :
    Except DuckError (Option Unit) × StatementM × Bool :=
  if s.result.isSome then
    (.error (.duckDBFailure (some "Statement already executed")), s, false)
  else
    match exec with
    | .ok () => (.ok (some ()), s, true)
    | .error e => (.error e, s, true)

/-- Source: `Statement::reset_result` (statement.rs lines 267-271). -/
def Statement.reset_result (s : StatementM) : StatementM :=
  if s.result.isSome then { s with result := none } else s

/-- Source: `impl Clone for Statement` (statement.rs lines 277-282): a shallow clone —
the connection `Arc` is shared, the native prepared-statement pointer is
copied verbatim, the result is emptied, the binding index is kept. -/
def Statement.clone (s : StatementM) : StatementM :=
  { con := s.con, stmt := s.stmt, result := none, bindIdx := s.bindIdx }

/-- Source: `impl Drop for Statement` (statement.rs lines 289-299): the destructor
calls `duckdb_destroy_prepare` on the statement pointer iff it is non-null;
this function returns the handle that the drop destroys (`none` = no native
call). -/
def Statement.dropDestroys (s : StatementM) : Option Nat :=
  match s.stmt with
  | some h => some h
  | none => none

/-! ## raw/connection.rs and connection.rs : closing a connection -/

/-- Source: `RawConnection` (connection.rs lines 105-108): the shared database
reference (identified by a number) and the native connection handle
(`none` models a null pointer). -/
structure RawConnectionM where
  db : Nat
  con : Option Nat
  deriving Repr, DecidableEq

/-- Source: `RawConnection::close` (raw/connection.rs lines 204-213): if the handle
is already null, return `Ok` without any native call; otherwise call
`duckdb_disconnect` and null the handle.  The `Bool` records whether the
native `duckdb_disconnect` was invoked. -/
def RawConnection.close (c : RawConnectionM) :
    Except DuckError Unit × RawConnectionM × Bool :=
  if c.con.isNone then
    (.ok (), c, false)
  else
    (.ok (), { c with con := none }, true)

/-- Source: `Connection::close` (connection.rs lines 76-78) simply delegates to
`RawConnection::close` on the wrapped raw connection. -/
def Connection.close (c : RawConnectionM) :
    Except DuckError Unit × RawConnectionM × Bool :=
  RawConnection.close c

/-! ## raw/appender.rs : Drop for Appender -/

/-- Observable outcome of running `impl Drop for Appender`. -/
inductive DropOutcome where
  | nothing
  | cleaned
  | panicked
  | logged
  deriving Repr, DecidableEq

/-- Source: `impl Drop for Appender` (appender.rs lines 63-73).  `handleNull` models
`self.inn.is_null()`, `flushResult` the outcome of the implicit
`self.flush()`, and `unwinding` whether this drop runs during an unwind from
an earlier panic (`std::thread::panicking()`).  The source reads
`self.flush().unwrap(); // cannot safely handle failures here (sic)` — it never
consults the unwinding state and has no logging path. -/
def Appender.dropRun (handleNull : Bool) (flushResult : Except DuckError Unit)
    (unwinding : Bool) : DropOutcome :=
  if handleNull then
    .nothing
  else
    match flushResult with
    | .ok () => .cleaned
    | .error _ => .panicked

/-! ## helpers/path.rs and connection.rs : NUL-containing open paths -/

/-- Source: `path_to_cstring` (helpers/path.rs lines 9-13, unix version): the raw bytes of the path are passed to `CString::new`, which fails with a `NulError`
(converted into the crate error) iff the bytes contain an embedded NUL. -/
def path_to_cstring (bytes : List Nat) : Except DuckError (List Nat) :=
  if 0 ∈ bytes then .error .nulError else .ok bytes

/-- Source: `Connection::open_with_flags` (connection.rs lines 24-31): convert the
path with `path_to_cstring` (the `?` returns its error immediately), then
inject the `duckdb_api` config key and call the native open.  The native
`RawConnection::open_with_flags` is modelled by the oracle `native`; the
returned `Bool` records whether the native layer was reached. -/
def Connection.open_with_flags (pathBytes : List Nat)
    (native : List Nat → Except DuckError RawConnectionM) :
    Except DuckError RawConnectionM × Bool :=
  match path_to_cstring pathBytes with
  | .error e => (.error e, false)
  | .ok c => (native c, true)

/-! ## types/value.rs : the value decoder `DuckValue::from_duckdb_vec`

The native column vector is modelled by `DuckVecM`: the validity bitmap and
typed views of the raw data buffer (`duckdb_vector_get_data` reinterpreted at
each primitive width), the per-row string descriptors and list entries, the
own column type of the vector, its list size, and the optional child vector for
nested list/array columns.  FFI accessors of `libduckdb-sys` that take the
raw cell value read as an `i64` (the source line
`let value = *data_ptr.add(row_idx) as duckdb_value`) are modelled by the
oracle record `FFIEnv`, as are the go/no-go answers of the external `chrono`
calendar constructors. -/

/-- A `duckdb_string_t` as seen by the VARCHAR arm: the descriptor length
(`duckdb_string_t_length`) and the bytes readable at the data pointer
(`duckdb_string_t_data`).  If `mem` holds no NUL byte the real code would
read past the readable memory; the model stops at the end of `mem`. -/
structure StrCell where
  length : Nat
  mem : List Nat
  deriving Repr, DecidableEq

/-- A `duckdb_list_entry` (offset, length). -/
structure ListEntry where
  offset : Nat
  length : Nat
  deriving Repr, DecidableEq

/-- The native type tags matched by `from_duckdb_vec` (value.rs lines 145-381);
`other` covers every remaining `DUCKDB_TYPE` constant (BLOB, ENUM, STRUCT,
UNION, UUID, ...), which all land in the wildcard `todo!()` arm. -/
inductive DuckTypeTag where
  | invalid
  | boolean
  | tinyint
  | smallint
  | integer
  | bigint
  | hugeint
  | utinyint
  | usmallint
  | uinteger
  | ubigint
  | uhugeint
  | float
  | double
  | timestamp
  | date
  | time
  | interval
  | varchar
  | stringLiteral
  | decimal
  | list
  | array
  | map
  | other (code : Nat)
  deriving Repr, DecidableEq

/-- The `DuckValue` enum (value.rs lines 31-103).  Float payloads are carried
as raw IEEE bit patterns (the decoder only bit-copies them); date/time
payloads carry the calendar fields the source hands to `chrono`. -/
inductive DuckValueM where
  | null
  | boolean (b : Bool)
  | tinyInt (v : Int)
  | smallInt (v : Int)
  | int (v : Int)
  | bigInt (v : Int)
  | hugeInt (v : Int)
  | uTinyInt (v : Nat)
  | uSmallInt (v : Nat)
  | uInt (v : Nat)
  | uBigInt (v : Nat)
  | uHugeInt (v : Nat)
  | float (bits : Nat)
  | double (bits : Nat)
  | timestamp (daysCE : Int) (secs : Nat) (nsecs : Nat)
  | date (year : Int) (month : Nat) (day : Nat)
  | time (secs : Nat) (nsecs : Nat)
  | interval (micros : Int)
  | text (s : String)
  | decimal (mantissa : Int) (scale : Nat)
  | blob (bytes : List Nat)
  | list (xs : List DuckValueM)
  | enumText (s : String)
  | array (xs : List DuckValueM)
  | union (v : DuckValueM)
  deriving Repr

/-- Outcome of a decode: `Ok(value)`, `Err(DuckDBConversionError::ConversionError(..))`,
or a `todo!()` panic (MAP and every unsupported tag). -/
inductive DResult (α : Type) where
  | ok (v : α)
  | convErr (msg : String)
  | panicked
  deriving Repr

/-- Oracles for the `libduckdb-sys` FFI accessors applied to a raw cell value
and for the external `chrono` calendar constructors (both outside this
crate). -/
structure FFIEnv where
  getTimestampMicros : Int → Int
  getDateDays : Int → Int
  fromDate : Int → Int × Nat × Nat
  ymdValid : Int → Nat → Nat → Bool
  fromNumDaysValid : Int → Bool
  secondsValid : Nat → Nat → Bool
  getTimeMicros : Int → Int
  getIntervalMonths : Int → Int
  getIntervalDays : Int → Int
  getIntervalMicros : Int → Int
  getDecimalScale : Int → Nat
  getDecimalValue : Int → Hugeint

/-- The native column vector model; see the section header. -/
inductive DuckVecM : Type where
  | mk
    (validity : Nat → Bool)
    (dataBool : Nat → Bool)
    (dataI8 dataI16 dataI32 dataI64 dataI128 : Nat → Int)
    (dataU8 dataU16 dataU32 dataU64 dataU128 : Nat → Nat)
    (dataF32bits dataF64bits : Nat → Nat)
    (dataStr : Nat → StrCell)
    (dataListEntry : Nat → ListEntry)
    (colType : DuckTypeTag)
    (listSize : Nat)
    (child : Option DuckVecM)

/-- Source: `duckdb_vector_get_validity` + `duckdb_validity_row_is_valid`. -/
def DuckVecM.validity : DuckVecM → Nat → Bool
  | .mk v _ _ _ _ _ _ _ _ _ _ _ _ _ _ _ _ _ _ => v

/-- The `duckdb_string_t` view of the data buffer. -/
def DuckVecM.dataStr : DuckVecM → Nat → StrCell
  | .mk _ _ _ _ _ _ _ _ _ _ _ _ _ _ s _ _ _ _ => s

/-- Source: `duckdb_get_type_id(duckdb_vector_get_column_type(this))`. -/
def DuckVecM.colType : DuckVecM → DuckTypeTag
  | .mk _ _ _ _ _ _ _ _ _ _ _ _ _ _ _ _ c _ _ => c

/-- Source: `duckdb_list_vector_get_size(this)`. -/
def DuckVecM.listSize : DuckVecM → Nat
  | .mk _ _ _ _ _ _ _ _ _ _ _ _ _ _ _ _ _ n _ => n

/-- Source: `duckdb_list_vector_get_child(this)` (`none` models a null child). -/
def DuckVecM.child : DuckVecM → Option DuckVecM
  | .mk _ _ _ _ _ _ _ _ _ _ _ _ _ _ _ _ _ _ c => c

/-- Rust `as i32` cast of a wider signed value. -/
def wrapI32 (x : Int) : Int := (x + 2 ^ 31) % (2 ^ 32 : Int) - 2 ^ 31

/-- Rust `as u32` cast of a signed 64-bit value. -/
def wrapU32 (x : Int) : Nat := (x % (2 ^ 32 : Int)).toNat

/-- Models the Rust std `String::from_utf8_lossy` semantics used through
`CStr::to_string_lossy` (std, outside this crate): decode UTF-8, replacing
each maximal invalid subpart by U+FFFD. -/
def utf8Lossy : List Nat → List Char
  | [] => []
  | b :: rest =>
    if b ≤ 0x7F then Char.ofNat b :: utf8Lossy rest
    else if 0xC2 ≤ b ∧ b ≤ 0xDF then
      match rest with
      | [] => [Char.ofNat 0xFFFD]
      | b2 :: rest2 =>
        if 0x80 ≤ b2 ∧ b2 ≤ 0xBF then
          Char.ofNat ((b % 0x20) * 0x40 + b2 % 0x40) :: utf8Lossy rest2
        else Char.ofNat 0xFFFD :: utf8Lossy (b2 :: rest2)
    else if 0xE0 ≤ b ∧ b ≤ 0xEF then
      match rest with
      | [] => [Char.ofNat 0xFFFD]
      | b2 :: rest2 =>
        if (if b = 0xE0 then 0xA0 ≤ b2 ∧ b2 ≤ 0xBF
            else if b = 0xED then 0x80 ≤ b2 ∧ b2 ≤ 0x9F
            else 0x80 ≤ b2 ∧ b2 ≤ 0xBF) then
          match rest2 with
          | [] => [Char.ofNat 0xFFFD]
          | b3 :: rest3 =>
            if 0x80 ≤ b3 ∧ b3 ≤ 0xBF then
              Char.ofNat ((b % 0x10) * 0x1000 + (b2 % 0x40) * 0x40 + b3 % 0x40) ::
                utf8Lossy rest3
            else Char.ofNat 0xFFFD :: utf8Lossy (b3 :: rest3)
        else Char.ofNat 0xFFFD :: utf8Lossy (b2 :: rest2)
    else if 0xF0 ≤ b ∧ b ≤ 0xF4 then
      match rest with
      | [] => [Char.ofNat 0xFFFD]
      | b2 :: rest2 =>
        if (if b = 0xF0 then 0x90 ≤ b2 ∧ b2 ≤ 0xBF
            else if b = 0xF4 then 0x80 ≤ b2 ∧ b2 ≤ 0x8F
            else 0x80 ≤ b2 ∧ b2 ≤ 0xBF) then
          match rest2 with
          | [] => [Char.ofNat 0xFFFD]
          | b3 :: rest3 =>
            if 0x80 ≤ b3 ∧ b3 ≤ 0xBF then
              match rest3 with
              | [] => [Char.ofNat 0xFFFD]
              | b4 :: rest4 =>
                if 0x80 ≤ b4 ∧ b4 ≤ 0xBF then
                  Char.ofNat ((b % 8) * 0x40000 + (b2 % 0x40) * 0x1000 +
                      (b3 % 0x40) * 0x40 + b4 % 0x40) :: utf8Lossy rest4
                else Char.ofNat 0xFFFD :: utf8Lossy (b4 :: rest4)
            else Char.ofNat 0xFFFD :: utf8Lossy (b3 :: rest3)
        else Char.ofNat 0xFFFD :: utf8Lossy (b2 :: rest2)
    else Char.ofNat 0xFFFD :: utf8Lossy rest
  termination_by l => l.length
  decreasing_by all_goals simp_wf <;> omega

/-- The VARCHAR / STRING_LITERAL arm (value.rs lines 243-280): read the
`duckdb_string_t` of the row, take the data pointer, compute the length
(`let _length = duckdb_string_t_length(duck_string_t); // !NOTICE`) without
ever using it, and build the Rust string via
`CStr::from_ptr(char_ptr).to_string_lossy().into_owned()`: the bytes up to
the first NUL, decoded lossily — never a `ConversionError`. -/
def varcharRead (sc : StrCell) : DResult DuckValueM :=
  let _length := sc.length
  .ok (.text (String.mk (utf8Lossy (sc.mem.takeWhile (fun b => b ≠ 0)))))

/-- Source: `impl DuckDialect for NaiveDate :: from_duck` (date_chrono.rs lines 33-49):
`duckdb_get_date`, `duckdb_from_date` and the chrono `from_ymd_opt` modelled by
the env oracles; an impossible calendar date is a `ConversionError`. -/
def dateFromDuck (env : FFIEnv) (value : Int) : DResult DuckValueM :=
  let days := env.getDateDays value
  match env.fromDate days with
  | (y, m, d) =>
    if env.ymdValid y m d then .ok (.date y m d) else .convErr "Invalid date"

/-- Source: `impl DuckDialect for NaiveDateTime :: from_duck` (date_chrono.rs lines
81-100): epoch microseconds split into days (with the `as i32` cast of the source)
plus seconds/nanoseconds of the day (with `as u32` casts); either chrono
constructor failing is a `ConversionError`. -/
def timestampFromDuck (env : FFIEnv) (value : Int) : DResult DuckValueM :=
  let micros := env.getTimestampMicros value
  let daysSinceEpoch := micros.tdiv 86400000000
  let daysCE := wrapI32 daysSinceEpoch + 719163
  if !env.fromNumDaysValid daysCE then .convErr "Invalid date"
  else
    let microsOfDay := micros.tmod 86400000000
    let secs := wrapU32 (microsOfDay.tdiv 1000000)
    let nsecs := wrapU32 (microsOfDay.tmod 1000000 * 1000)
    if !env.secondsValid secs nsecs then .convErr "Invalid time"
    else .ok (.timestamp daysCE secs nsecs)

/-- Source: `impl DuckDialect for NaiveTime :: from_duck` (date_chrono.rs lines 57-72). -/
def timeFromDuck (env : FFIEnv) (value : Int) : DResult DuckValueM :=
  let micros := env.getTimeMicros value
  let secs := wrapU32 (micros.tdiv 1000000)
  let nsecs := wrapU32 (micros.tmod 1000000 * 1000)
  if env.secondsValid secs nsecs then .ok (.time secs nsecs)
  else .convErr "Invalid time"

/-- Source: `impl DuckDialect for Duration :: from_duck` (date_chrono.rs lines 11-24):
a month counts as exactly 30 days; the result is a flat microsecond duration.
(The unchecked `i64` products are modelled as mathematical integers.) -/
def intervalFromDuck (env : FFIEnv) (value : Int) : DResult DuckValueM :=
  let totalDays := env.getIntervalMonths value * 30 + env.getIntervalDays value
  let totalMicros := totalDays * 86400000000 + env.getIntervalMicros value
  .ok (.interval totalMicros)

/-- Source: `impl DuckDialect for Decimal :: from_duck` (numeric.rs lines 154-175):
`duckdb_get_decimal` then `Decimal::from_i128_with_scale(i128_from_hugeint(..), scale)`. -/
def decimalFromDuck (env : FFIEnv) (value : Int) : DResult DuckValueM :=
  let scale := env.getDecimalScale value
  .ok (.decimal (i128_from_hugeint (env.getDecimalValue value)) scale)

/-- The list/array collections are allocated with `list_length` slots but only
the first `offset` slots are written before `assume_init` / `set_len`; the
uninitialized remainder (undefined behaviour in the source) is modelled as
nulls. -/
def padTo (len : Nat) (xs : List DuckValueM) : List DuckValueM :=
  (xs ++ List.replicate (len - xs.length) DuckValueM.null).take len

mutual

/-- Source: `DuckValue::from_duckdb_vec` (value.rs lines 127-382).  The validity
bitmap is consulted first, before any dispatch on the type tag: an invalid
row short-circuits to `Ok(DuckValue::Null)`.  Otherwise the function
dispatches on the tag: primitives are read from the matching typed view of
the data buffer; date/time/timestamp/interval/decimal delegate to the
`from_duck` conversions on the raw cell value; VARCHAR reads the string
descriptor; LIST/ARRAY decode `(*list_data).offset` children from the child
vector with the own type tag and validity of the child; MAP and every remaining
tag hit `todo!()`. -/
def fromDuckdbVec (env : FFIEnv) (vec : DuckVecM) (t : DuckTypeTag) (rowIdx : Nat) :
    DResult DuckValueM :=
  match vec with
  | .mk validity dataBool dataI8 dataI16 dataI32 dataI64 dataI128
      dataU8 dataU16 dataU32 dataU64 dataU128 dataF32bits dataF64bits
      dataStr dataListEntry _colType _listSize child =>
    if !validity rowIdx then .ok .null
    else
      let value := dataI64 rowIdx
      match t with
      | .invalid => .convErr "Invalid type!"
      | .boolean => .ok (.boolean (dataBool rowIdx))
      | .tinyint => .ok (.tinyInt (dataI8 rowIdx))
      | .smallint => .ok (.smallInt (dataI16 rowIdx))
      | .integer => .ok (.int (dataI32 rowIdx))
      | .bigint => .ok (.bigInt (dataI64 rowIdx))
      | .hugeint => .ok (.hugeInt (dataI128 rowIdx))
      | .utinyint => .ok (.uTinyInt (dataU8 rowIdx))
      | .usmallint => .ok (.uSmallInt (dataU16 rowIdx))
      | .uinteger => .ok (.uInt (dataU32 rowIdx))
      | .ubigint => .ok (.uBigInt (dataU64 rowIdx))
      | .uhugeint => .ok (.uHugeInt (dataU128 rowIdx))
      | .float => .ok (.float (dataF32bits rowIdx))
      | .double => .ok (.double (dataF64bits rowIdx))
      | .timestamp => timestampFromDuck env value
      | .date => dateFromDuck env value
      | .time => timeFromDuck env value
      | .interval => intervalFromDuck env value
      | .varchar | .stringLiteral => varcharRead (dataStr rowIdx)
      | .decimal => decimalFromDuck env value
      | .list | .array =>
        let entry := dataListEntry rowIdx
        match child with
        | none => .panicked
        | some listChild =>
          match decodeChildren env listChild listChild.colType
              (List.range entry.offset) with
          | .ok xs =>
            let padded := padTo listChild.listSize xs
            if t = .array then .ok (.array padded)
            else .ok (.list padded)
          | .convErr m => .convErr m
          | .panicked => .panicked
      | .map => .panicked
      | .other _ => .panicked

/-- The element loop of the LIST/ARRAY arm (value.rs lines 306-318): for each
index, start from `DuckValue::Null`, and only when the validity bitmap of the child
bitmap marks the element valid recurse into `from_duckdb_vec` on the child
vector with the own type tag of the child; a child `ConversionError` aborts the
whole decode via `?`. -/
def decodeChildren (env : FFIEnv) (c : DuckVecM) (ct : DuckTypeTag) :
    List Nat → DResult (List DuckValueM)
  | [] => .ok []
  | i :: is =>
    match (if c.validity i then fromDuckdbVec env c ct i else .ok .null) with
    | .ok v =>
      match decodeChildren env c ct is with
      | .ok vs => .ok (v :: vs)
      | .convErr m => .convErr m
      | .panicked => .panicked
    | .convErr m => .convErr m
    | .panicked => .panicked

end

/-! ## raw/data_chunk.rs and raw/result.rs : chunked row traversal -/

/-- Source: `RawDataChunk` (data_chunk.rs lines 8-11): `rows` is what
`duckdb_data_chunk_get_size` answers for the held handle, `cursor` is the
current row index (field `.1`). -/
structure RawDataChunkM where
  rows : Nat
  cursor : Nat
  deriving Repr, DecidableEq

/-- Source: `RawDataChunk::next_row` (data_chunk.rs lines 49-62): nothing on an empty
chunk; on an exhausted cursor reset the index (the handle is destroyed and
nulled); otherwise yield the current index and advance the cursor. -/
def RawDataChunk.next_row (c : RawDataChunkM) : Option Nat × RawDataChunkM :=
  if c.rows < 1 then (none, c)
  else if c.cursor ≥ c.rows then (none, { c with cursor := 0 })
  else (some c.cursor, { c with cursor := c.cursor + 1 })

/-- The traversal state of a `RawResult` (result.rs lines 24-30): `pending`
lists the row counts of the chunks the native result will still yield through
`duckdb_fetch_chunk` (the empty list models the terminal null chunk), and
`chunk` is the currently loaded `RawDataChunk`, if any. -/
structure RawResultM where
  pending : List Nat
  chunk : Option RawDataChunkM
  deriving Repr, DecidableEq

/-- One pass of the `advance` loop starting with no loaded chunk (result.rs
lines 159-177 plus the body below): `RawDataChunk::from_result` pops the next
native chunk (a null chunk means no more items); a freshly fetched chunk is
then checked for zero rows — in which case the loop RETURNS `None` — and
otherwise `next_row` succeeds on it.  (`Some(Err(_))` from `from_result` is
unreachable: the fetched handle is non-null there, so `RawDataChunk::new`
cannot fail.) -/
def RawResult.advanceFetch : List Nat → Option Unit × RawResultM
  | [] => (none, ⟨[], none⟩)
  | r :: rest =>
    if r = 0 then (none, ⟨rest, none⟩)
    else
      match RawDataChunk.next_row ⟨r, 0⟩ with
      | (some _, ch) => (some (), ⟨rest, some ch⟩)
      | (none, _) => RawResult.advanceFetch rest

/-- Source: `RawResult::advance` (result.rs lines 155-198).  With a chunk already
loaded: a zero-row chunk is dropped and the function returns `None`
immediately; a chunk with a remaining row advances its cursor; an exhausted
chunk is dropped and the loop continues by fetching the next chunk. -/
def RawResult.advance (s : RawResultM) : Option Unit × RawResultM :=
  match s.chunk with
  | none => RawResult.advanceFetch s.pending
  | some ch =>
    if ch.rows = 0 then (none, ⟨s.pending, none⟩)
    else
      match RawDataChunk.next_row ch with
      | (some _, ch2) => (some (), ⟨s.pending, some ch2⟩)
      | (none, _) => RawResult.advanceFetch s.pending

/-! ## concrete fixtures used by witnesses and counterexamples -/

/-- A concrete FFI environment for witnesses: every oracle answers a fixed
benign value. -/
def witnessEnv : FFIEnv :=
  ⟨fun _ => 0, fun _ => 0, fun _ => (1970, 1, 1), fun _ _ _ => true, fun _ => true,
   fun _ _ => true, fun _ => 0, fun _ => 0, fun _ => 0, fun _ => 0, fun _ => 0,
   fun _ => ⟨0, 0⟩⟩

/-- A concrete column vector whose string cells carry the given descriptor
length and memory bytes, with the given validity answer for every row. -/
def strVec (valid : Bool) (len : Nat) (mem : List Nat) : DuckVecM :=
  .mk (fun _ => valid) (fun _ => false) (fun _ => 0) (fun _ => 0) (fun _ => 0)
    (fun _ => 0) (fun _ => 0) (fun _ => 0) (fun _ => 0) (fun _ => 0) (fun _ => 0)
    (fun _ => 0) (fun _ => 0) (fun _ => 0) (fun _ => ⟨len, mem⟩) (fun _ => ⟨0, 0⟩)
    .varchar 0 none

/-! ## Theorems -/

lemma wrapI64_eq_self {x : Int} (h1 : -(2 ^ 63) ≤ x) (h2 : x < 2 ^ 63) : wrapI64 x = x := by
  have hx0 : (0 : Int) ≤ x + 2 ^ 63 := by linarith
  have hx1 : x + 2 ^ 63 < 2 ^ 64 := by nlinarith
  unfold wrapI64
  rw [Int.emod_eq_of_lt hx0 hx1]
  ring

lemma wrapU64_coe {x : Int} (h1 : 0 ≤ x) (h2 : x < 2 ^ 64) : ((wrapU64 x : Nat) : Int) = x := by
  unfold wrapU64
  rw [Int.emod_eq_of_lt h1 h2, Int.toNat_of_nonneg h1]

/-- C2 (corrected): for in-range limbs, `i128_from_hugeint` computes
`high * (2^64 - 1) + low` — the `measure` in the source is `u64::MAX`, i.e.
`2^64 - 1`, not `2^64` — and consequently differs from the claimed
`high * 2^64 + low` whenever the high limb is nonzero. -/
theorem i128_from_hugeint_measure_is_u64_max (hi : Int) (lo : Nat)
    (h1 : -(2 ^ 63) ≤ hi) (h2 : hi < 2 ^ 63) (h3 : lo < 2 ^ 64) :
    i128_from_hugeint ⟨hi, lo⟩ = hi * (2 ^ 64 - 1) + lo ∧
      (hi ≠ 0 → i128_from_hugeint ⟨hi, lo⟩ ≠ hi * 2 ^ 64 + lo) := by
  constructor
  · rfl
  · intro h0 heq
    apply h0
    have : hi * (2 ^ 64 - 1) + (lo : Int) = hi * 2 ^ 64 + lo := heq
    linarith

/-- Witness for `i128_from_hugeint_measure_is_u64_max` at `high = 1`, `low = 0`. -/
theorem i128_from_hugeint_measure_is_u64_max_witness :
    i128_from_hugeint ⟨1, 0⟩ = 1 * (2 ^ 64 - 1) + (0 : Nat) ∧
      ((1 : Int) ≠ 0 → i128_from_hugeint ⟨1, 0⟩ ≠ 1 * 2 ^ 64 + (0 : Nat)) :=
  i128_from_hugeint_measure_is_u64_max 1 0 (by decide) (by decide) (by decide)

/-- Counterexample to C2 as stated: for the limb pair `(high, low) = (1, 0)` the
decoder yields `2^64 - 1 = 18446744073709551615`, not `1 * 2^64 + 0`. -/
theorem i128_from_hugeint_counterexample :
    i128_from_hugeint ⟨1, 0⟩ = 2 ^ 64 - 1 ∧
      ¬ i128_from_hugeint ⟨1, 0⟩ = 1 * 2 ^ 64 + 0 := by
  decide

/-- C3 (amended): the two-limb round-trip is exact for every `i128` value
strictly between `-MAX_SUPPORTED_I128` and `MAX_SUPPORTED_I128`. (At the two
endpoints `±MAX_SUPPORTED_I128` themselves the `as i64` cast in the encoder of the
quotient `2^63` wraps and round-trip fails; see the counterexample.) -/
theorem hugeint_roundtrip (v : Int)
    (hlo : -MAX_SUPPORTED_I128 < v) (hhi : v < MAX_SUPPORTED_I128) :
    (hugeint_from_i128 v).map i128_from_hugeint = some v := by
  have hM : MAX_SUPPORTED_I128 = 2 ^ 63 * (2 ^ 64 - 1) := by norm_num [MAX_SUPPORTED_I128]
  have hMpos : (0 : Int) < 2 ^ 64 - 1 := by norm_num
  unfold hugeint_from_i128
  rw [if_neg (by push_neg; constructor <;> linarith)]
  by_cases hneg : v < 0
  · -- negative branch of the encoder
    have ha0 : (0 : Int) ≤ -v := by linarith
    have haM : -v < 2 ^ 63 * (2 ^ 64 - 1) := by linarith
    have htd : (-v).tdiv (2 ^ 64 - 1) = (-v) / (2 ^ 64 - 1) :=
      Int.tdiv_eq_ediv ha0 (by norm_num)
    have htm : (-v).tmod (2 ^ 64 - 1) = (-v) % (2 ^ 64 - 1) :=
      Int.tmod_eq_emod ha0 (by norm_num)
    have hq0 : (0 : Int) ≤ (-v) / (2 ^ 64 - 1) := Int.ediv_nonneg ha0 (by norm_num)
    have hqlt : (-v) / (2 ^ 64 - 1) < 2 ^ 63 :=
      (Int.ediv_lt_iff_lt_mul hMpos).mpr haM
    have hr0 : (0 : Int) ≤ (-v) % (2 ^ 64 - 1) := Int.emod_nonneg _ (by norm_num)
    have hrlt : (-v) % (2 ^ 64 - 1) < 2 ^ 64 - 1 := Int.emod_lt_of_pos _ hMpos
    have hlow : ((wrapU64 ((-v) % (2 ^ 64 - 1)) : Nat) : Int) = (-v) % (2 ^ 64 - 1) :=
      wrapU64_coe hr0 (by linarith)
    have hlowlt : (wrapU64 ((-v) % (2 ^ 64 - 1)) : Nat) < 2 ^ 64 - 1 := by
      omega
    simp only [hneg, if_true, if_pos hneg]
    rw [htd, htm, wrapI64_eq_self (by linarith) hqlt]
    rw [if_neg (by omega), add_zero,
      wrapI64_eq_self (by linarith) (by linarith)]
    simp only [Option.map_some', Option.some.injEq, i128_from_hugeint]
    have H := Int.ediv_add_emod (-v) (2 ^ 64 - 1)
    norm_num only at hlow hlowlt H ⊢
    rw [Nat.cast_sub hlowlt.le, hlow]
    push_cast
    linear_combination (-1 : Int) * H
  · -- non-negative branch of the encoder
    have ha0 : (0 : Int) ≤ v := by linarith
    have haM : v < 2 ^ 63 * (2 ^ 64 - 1) := by linarith
    have htd : v.tdiv (2 ^ 64 - 1) = v / (2 ^ 64 - 1) :=
      Int.tdiv_eq_ediv ha0 (by norm_num)
    have htm : v.tmod (2 ^ 64 - 1) = v % (2 ^ 64 - 1) :=
      Int.tmod_eq_emod ha0 (by norm_num)
    have hq0 : (0 : Int) ≤ v / (2 ^ 64 - 1) := Int.ediv_nonneg ha0 (by norm_num)
    have hqlt : v / (2 ^ 64 - 1) < 2 ^ 63 :=
      (Int.ediv_lt_iff_lt_mul hMpos).mpr haM
    have hr0 : (0 : Int) ≤ v % (2 ^ 64 - 1) := Int.emod_nonneg _ (by norm_num)
    have hrlt : v % (2 ^ 64 - 1) < 2 ^ 64 - 1 := Int.emod_lt_of_pos _ hMpos
    have hlow : ((wrapU64 (v % (2 ^ 64 - 1)) : Nat) : Int) = v % (2 ^ 64 - 1) :=
      wrapU64_coe hr0 (by linarith)
    simp only [hneg, if_false]
    rw [htd, htm, wrapI64_eq_self (by linarith) hqlt]
    simp only [Option.map_some', Option.some.injEq, i128_from_hugeint]
    rw [hlow]
    have H := Int.ediv_add_emod v (2 ^ 64 - 1)
    linear_combination H

/-- Witness for `hugeint_roundtrip`: the four concrete values named by the test-property
sentence of the spec that actually lie in the supported open range all
round-trip: `5`, `170141183460469231722463931679029329919` (which is
`MAX_SUPPORTED_I128 - 1`), `-5`, and `-(MAX_SUPPORTED_I128 - 1)`. -/
theorem hugeint_roundtrip_witness :
    (hugeint_from_i128 5).map i128_from_hugeint = some 5 ∧
      (hugeint_from_i128 170141183460469231722463931679029329919).map i128_from_hugeint
        = some 170141183460469231722463931679029329919 ∧
      (hugeint_from_i128 (-5)).map i128_from_hugeint = some (-5) ∧
      (hugeint_from_i128 (-170141183460469231722463931679029329919)).map i128_from_hugeint
        = some (-170141183460469231722463931679029329919) :=
  ⟨hugeint_roundtrip 5 (by decide) (by decide),
   hugeint_roundtrip 170141183460469231722463931679029329919 (by decide) (by decide),
   hugeint_roundtrip (-5) (by decide) (by decide),
   hugeint_roundtrip (-170141183460469231722463931679029329919) (by decide) (by decide)⟩

/-- Counterexample to C3 as stated: the negative of the maximum supported value,
`-MAX_SUPPORTED_I128`, does NOT round-trip: encoding it wraps the high limb
(`2^63` does not fit in `i64`) and decoding gives back `+MAX_SUPPORTED_I128`. -/
theorem hugeint_roundtrip_fails_at_neg_max :
    (hugeint_from_i128 (-MAX_SUPPORTED_I128)).map i128_from_hugeint
        = some MAX_SUPPORTED_I128 ∧
      ¬ (hugeint_from_i128 (-MAX_SUPPORTED_I128)).map i128_from_hugeint
        = some (-MAX_SUPPORTED_I128) := by
  constructor
  · decide
  · decide

/-- C1 (code_bug evidence): `fetch` never stores the produced result in
`self.result`, so after a first successful `fetch` a second `fetch` on the
same `Statement` re-executes the native prepared statement and returns
`Ok(Some(..))` — it does not return the documented `AlreadyExecuted`
failure.  Starting from a freshly prepared statement (`result = none`),
both calls execute natively (`Bool = true`) and both succeed. -/
theorem fetch_second_call_reexecutes :
    (Statement.fetch ⟨1, some 1, none, 0⟩ (.ok ())
      = (.ok (some ()), ⟨1, some 1, none, 0⟩, true)) ∧
    (Statement.fetch (Statement.fetch ⟨1, some 1, none, 0⟩ (.ok ())).2.1 (.ok ())
      = (.ok (some ()), ⟨1, some 1, none, 0⟩, true)) ∧
    ¬ (Statement.fetch (Statement.fetch ⟨1, some 1, none, 0⟩ (.ok ())).2.1 (.ok ())).1
      = .error (.duckDBFailure (some "Statement already executed")) := by
  refine ⟨rfl, rfl, fun h => Except.noConfusion h⟩

/-- Counterexample to C8 as stated: cloning a `Statement` whose native handle
is live yields a second live wrapper referencing the very same native
prepared-statement handle, and the destructors of both wrappers would destroy that
same handle. -/
theorem statement_clone_shares_handle :
    (Statement.clone ⟨1, some 7, some (), 3⟩).stmt = some 7 ∧
      Statement.dropDestroys ⟨1, some 7, some (), 3⟩ = some 7 ∧
      Statement.dropDestroys (Statement.clone ⟨1, some 7, some (), 3⟩) = some 7 := by
  decide

/-- C8 (amended): `Statement::clone` is a shallow clone — the clone shares the
native prepared-statement handle of the original (clearing only the stored result
and keeping the binding index), so whenever the handle is live, both the
destructors of both the original and the clone would destroy the same native prepared
statement.  Single native-handle ownership therefore does not hold for cloned
Statements (the source documents this as a "use with caution" shallow clone). -/
theorem statement_clone_is_shallow (s : StatementM) (h : Nat) (hs : s.stmt = some h) :
    (Statement.clone s).stmt = s.stmt ∧
      (Statement.clone s).result = none ∧
      (Statement.clone s).bindIdx = s.bindIdx ∧
      Statement.dropDestroys s = some h ∧
      Statement.dropDestroys (Statement.clone s) = some h := by
  refine ⟨rfl, rfl, rfl, ?_, ?_⟩ <;> simp [Statement.dropDestroys, Statement.clone, hs]

/-- Witness for `statement_clone_is_shallow` at a concrete statement. -/
theorem statement_clone_is_shallow_witness :
    (Statement.clone ⟨2, some 9, none, 0⟩).stmt = (⟨2, some 9, none, 0⟩ : StatementM).stmt ∧
      (Statement.clone ⟨2, some 9, none, 0⟩).result = none ∧
      (Statement.clone ⟨2, some 9, none, 0⟩).bindIdx = (⟨2, some 9, none, 0⟩ : StatementM).bindIdx ∧
      Statement.dropDestroys ⟨2, some 9, none, 0⟩ = some 9 ∧
      Statement.dropDestroys (Statement.clone ⟨2, some 9, none, 0⟩) = some 9 :=
  statement_clone_is_shallow ⟨2, some 9, none, 0⟩ 9 rfl

/-- C9 (confirmed): closing a Connection is idempotent — both the first and
the second `close` return `Ok`, the first close nulls the handle, the second
close performs no native disconnect, and the native disconnect happens at
most once over the two calls. -/
theorem connection_close_idempotent (c : RawConnectionM) :
    (Connection.close c).1 = .ok () ∧
      (Connection.close c).2.1.con = none ∧
      (Connection.close (Connection.close c).2.1).1 = .ok () ∧
      (Connection.close (Connection.close c).2.1).2.2 = false ∧
      ((Connection.close c).2.2 = true → c.con ≠ none) := by
  unfold Connection.close RawConnection.close
  rcases c with ⟨db, con⟩
  cases con <;> simp

/-- Counterexample to C5 as stated: when the drop occurs during an unwind and
the implicit flush fails, the failure is escalated as a panic, not merely
logged. -/
theorem appender_drop_panics_even_when_unwinding :
    Appender.dropRun false (.error (.duckDBFailure (some "flush failed"))) true
        = .panicked ∧
      ¬ Appender.dropRun false (.error (.duckDBFailure (some "flush failed"))) true
        = .logged := by
  decide

/-- C5 (amended): when an Appender with a live native handle is dropped and
its implicit flush fails, the failure is always escalated as a panic (via
`unwrap`), regardless of whether the drop occurs during an unwind; the drop
implementation has no logging fallback and never consults the unwinding
state. -/
theorem appender_drop_flush_failure_always_panics
    (e : DuckError) (unwinding : Bool) :
    Appender.dropRun false (.error e) unwinding = .panicked ∧
      Appender.dropRun false (.error e) true
        = Appender.dropRun false (.error e) false := by
  constructor <;> rfl

/-- C10 (confirmed): for every open path containing an embedded NUL byte, the
open fails with the path-conversion error and the native open layer is never
reached, whatever the native open would have done. -/
theorem open_nul_path_rejected_before_native (pathBytes : List Nat)
    (native : List Nat → Except DuckError RawConnectionM)
    (h : 0 ∈ pathBytes) :
    Connection.open_with_flags pathBytes native = (.error .nulError, false) := by
  unfold Connection.open_with_flags path_to_cstring
  simp [h]

/-- Witness for `open_nul_path_rejected_before_native` at the path bytes
`"a\x00b"` with a native oracle that would always succeed. -/
theorem open_nul_path_rejected_before_native_witness :
    Connection.open_with_flags [97, 0, 98] (fun _ => .ok ⟨0, some 1⟩)
      = (.error .nulError, false) :=
  open_nul_path_rejected_before_native [97, 0, 98] (fun _ => .ok ⟨0, some 1⟩)
    (by decide)

lemma fromDuckdbVec_varchar_arm (env : FFIEnv) (vec : DuckVecM) (row : Nat)
    (h : vec.validity row = true) :
    fromDuckdbVec env vec .varchar row = varcharRead (vec.dataStr row) := by
  rcases vec with ⟨v, db, i8, i16, i32, i64, i128, u8, u16, u32, u64, u128,
    f32, f64, ds, dl, ct, ls, ch⟩
  simp only [DuckVecM.validity] at h
  simp [fromDuckdbVec, DuckVecM.dataStr, h]

/-- C6 (confirmed): for every column vector, type tag (including unsupported
ones) and row index, an invalid row in the validity bitmap short-circuits the
decode to `Ok(DuckValue::Null)` before any dispatch on the type tag. -/
theorem decode_invalid_row_is_null (env : FFIEnv) (vec : DuckVecM)
    (t : DuckTypeTag) (row : Nat) (h : vec.validity row = false) :
    fromDuckdbVec env vec t row = .ok .null := by
  rcases vec with ⟨v, db, i8, i16, i32, i64, i128, u8, u16, u32, u64, u128,
    f32, f64, ds, dl, ct, ls, ch⟩
  simp only [DuckVecM.validity] at h
  simp [fromDuckdbVec, h]

/-- Witness for `decode_invalid_row_is_null`: a concrete invalid row decodes
to null even under an unsupported type tag (which would otherwise `todo!()`). -/
theorem decode_invalid_row_is_null_witness :
    (strVec false 5 [97]).validity 0 = false ∧
      fromDuckdbVec witnessEnv (strVec false 5 [97]) (.other 42) 0 = .ok .null :=
  ⟨rfl, decode_invalid_row_is_null witnessEnv (strVec false 5 [97]) (.other 42) 0 rfl⟩

/-- C7 (amended): decoding a varchar/text cell never produces a
`ConversionError`: the bytes at the data pointer of the string descriptor are read
only up to the first NUL byte (`CStr::from_ptr`, ignoring the descriptor
length, which the source computes into an unused `_length`), and decoded
lossily (`to_string_lossy`), substituting U+FFFD for invalid UTF-8 instead of
erroring. -/
theorem varchar_decode_is_lossy_and_ignores_length (env : FFIEnv)
    (vec : DuckVecM) (row : Nat) (h : vec.validity row = true) :
    fromDuckdbVec env vec .varchar row
      = .ok (.text (String.mk
          (utf8Lossy ((vec.dataStr row).mem.takeWhile (fun b => b ≠ 0))))) := by
  rw [fromDuckdbVec_varchar_arm env vec row h]
  rfl

/-- Witness for `varchar_decode_is_lossy_and_ignores_length` at a cell whose
bytes are not valid UTF-8. -/
theorem varchar_decode_is_lossy_and_ignores_length_witness :
    fromDuckdbVec witnessEnv (strVec true 5 [0xFF, 0]) .varchar 0
      = .ok (.text (String.mk
          (utf8Lossy (((strVec true 5 [0xFF, 0]).dataStr 0).mem.takeWhile
            (fun b => b ≠ 0))))) :=
  varchar_decode_is_lossy_and_ignores_length witnessEnv (strVec true 5 [0xFF, 0]) 0 rfl

/-- Counterexample to C7 as stated: a varchar cell holding the invalid UTF-8
byte `0xFF` decodes to `Ok(Text("\u{FFFD}"))` — a silently substituted
string, not a `ConversionError` — and a cell whose descriptor says 5 bytes
`"ab\x00cd"` decodes to `Ok(Text("ab"))`: truncated at the first NUL, the
descriptor length ignored. -/
theorem varchar_decode_counterexample :
    fromDuckdbVec witnessEnv (strVec true 5 [0xFF, 0]) .varchar 0
        = .ok (.text (String.mk [Char.ofNat 0xFFFD])) ∧
      fromDuckdbVec witnessEnv (strVec true 5 [97, 98, 0, 99, 100]) .varchar 0
        = .ok (.text "ab") := by
  constructor
  · rw [fromDuckdbVec_varchar_arm witnessEnv (strVec true 5 [0xFF, 0]) 0 rfl]
    simp [varcharRead, strVec, utf8Lossy, List.takeWhile]
  · rw [fromDuckdbVec_varchar_arm witnessEnv (strVec true 5 [97, 98, 0, 99, 100]) 0 rfl]
    simp [varcharRead, strVec, utf8Lossy, List.takeWhile]

/-- Counterexample to C4 as stated: with a loaded zero-row chunk while a
1-row chunk is still pending from the native result, `advance` ends the
iteration (returns `None`) without fetching the pending chunk — an empty
chunk in the middle of the stream DOES end the iteration. -/
theorem advance_empty_chunk_counterexample :
    RawResult.advance ⟨[1], some ⟨0, 0⟩⟩ = (none, ⟨[1], none⟩) ∧
      ¬ (RawResult.advance ⟨[1], some ⟨0, 0⟩⟩).1 = some () := by
  decide

/-- C4 (amended): a chunk with zero rows terminates the iteration: whether it
is the currently loaded chunk or the next chunk fetched from the native
result, `advance` discards it and returns "no more rows" immediately, without
trying any further chunk.  The fetch loop (not recursion) is used only after
a chunk is exhausted by consuming its rows: then `advance` fetches the next
pending chunk and yields its first row. -/
theorem advance_zero_row_chunk_terminates (pending rest : List Nat)
    (c m r : Nat) (hm : 0 < m) (hr : 0 < r) :
    RawResult.advance ⟨pending, some ⟨0, c⟩⟩ = (none, ⟨pending, none⟩) ∧
      RawResult.advance ⟨0 :: rest, none⟩ = (none, ⟨rest, none⟩) ∧
      RawResult.advance ⟨r :: rest, some ⟨m, m⟩⟩ = (some (), ⟨rest, some ⟨r, 1⟩⟩) := by
  refine ⟨rfl, rfl, ?_⟩
  simp only [RawResult.advance, RawDataChunk.next_row]
  rw [if_neg (by omega), if_neg (by omega), if_pos (by omega)]
  simp only [RawResult.advanceFetch, RawDataChunk.next_row]
  rw [if_neg (by omega)]
  rw [if_neg (by omega), if_neg (by omega)]

/-- Witness for `advance_zero_row_chunk_terminates` at concrete states. -/
theorem advance_zero_row_chunk_terminates_witness :
    RawResult.advance ⟨[2], some ⟨0, 0⟩⟩ = (none, ⟨[2], none⟩) ∧
      RawResult.advance ⟨0 :: [3], none⟩ = (none, ⟨[3], none⟩) ∧
      RawResult.advance ⟨2 :: [3], some ⟨1, 1⟩⟩ = (some (), ⟨[3], some ⟨2, 1⟩⟩) :=
  advance_zero_row_chunk_terminates [2] [3] 0 1 2 (by decide) (by decide)

end BetterDuck
